import Mathlib

/-!
Shallow embedding of the NonAdminBackup reconciler from
internal/controller/nonadminbackup_controller.go, together with proofs about
its reconciliation paths, the enforced-spec merge, phase updates, finalizer
discipline and the child-resource counters.

Kubernetes API calls are modelled as pure transformations of an explicit
ClusterState, each recording the write operations it performs.  API writes are
modelled as always succeeding; the Go code merely propagates a write error,
aborting the pass.
-/

namespace NAC

/-- Association-list lookup used to model Kubernetes label and annotation maps. -/
def lookupKV (m : List (String × String)) (k : String) : Option String :=
  match m with
  | [] => none
  | (k', v) :: rest => if k' = k then some v else lookupKV rest k

/-- Modelled from the spec: the key constants live in internal/common/constant,
which is not under src/.  Only their identity (distinctness) is used by the
controller code; the concrete strings are placeholders. -/
def nabSyncLabelKey : String := "openshift.io/oadp-nab-origin-nacuuid-sync"

def nabOriginNACUUIDLabelKey : String := "openshift.io/oadp-nab-origin-nacuuid"

def nabManagedLabelKey : String := "openshift.io/oadp-nac-managed"

def nabOriginNamespaceAnnotationKey : String := "openshift.io/oadp-nab-origin-namespace"

def nabOriginNameAnnotationKey : String := "openshift.io/oadp-nab-origin-name"

def nabOriginUIDAnnotationKey : String := "openshift.io/oadp-nab-origin-uid"

def nabFinalizerName : String := "nonadminbackup.oadp.openshift.io/finalizer"

def veleroBackupNameLabelKey : String := "velero.io/backup-name"

def veleroBackupUIDLabelKey : String := "velero.io/backup-uid"

/-- nacv1alpha1 resource names excluded from every non-admin backup
(alwaysExcludedNamespacedResources, controller lines 69-73). -/
def alwaysExcludedNamespacedResources : List String :=
  ["nonadminbackups", "nonadminrestores", "nonadminbackupstoragelocations"]

/-- alwaysExcludedClusterResources, controller lines 74-82. -/
def alwaysExcludedClusterResources : List String :=
  ["securitycontextconstraints", "clusterroles", "clusterrolebindings",
   "priorityclasses", "customresourcedefinitions",
   "virtualmachineclusterinstancetypes", "virtualmachineclusterpreferences"]

/-- The velero BackupSpec (an external type), restricted to the fields the
controller names plus representative further fields (ttl, snapshotVolumes,
defaultVolumesToFsBackup) over which the reflection-based merge loop also
ranges.  Go slices are lists with the zero value (nil) as the empty list;
Go pointers are Option. -/
structure BackupSpec where
  includedNamespaces : List String := []
  excludedNamespaces : List String := []
  includedResources : List String := []
  excludedResources : List String := []
  includedClusterScopedResources : List String := []
  excludedClusterScopedResources : List String := []
  includedNamespaceScopedResources : List String := []
  excludedNamespaceScopedResources : List String := []
  storageLocation : String := ""
  ttl : String := ""
  snapshotVolumes : Option Bool := none
  defaultVolumesToFsBackup : Option Bool := none
  deriving DecidableEq, Repr

/-- Go reflect.Value.IsZero for a string slice field. -/
def listIsZero (l : List String) : Bool := l.isEmpty

/-- Go reflect.Value.IsZero for a string field. -/
def stringIsZero (s : String) : Bool := s == ""

/-- Go reflect.Value.IsZero for a pointer field. -/
def optIsZero (o : Option Bool) : Bool := o.isNone

/-- One iteration of the reflection loop (controller lines 677-684):
if the enforced field is non-zero and the current (tenant) field is zero,
the enforced value is copied in. -/
def mergeField {α : Type} (isZero : α → Bool) (tenant enforced : α) : α :=
  if !isZero enforced && isZero tenant then enforced else tenant

/-- The reflection loop of createVeleroBackupAndSyncWithNonAdminBackup
(controller lines 675-684), written out field by field over the modelled
BackupSpec. -/
def mergeEnforcedBackupSpec (tenant enforced : BackupSpec) : BackupSpec where
  includedNamespaces :=
    mergeField listIsZero tenant.includedNamespaces enforced.includedNamespaces
  excludedNamespaces :=
    mergeField listIsZero tenant.excludedNamespaces enforced.excludedNamespaces
  includedResources :=
    mergeField listIsZero tenant.includedResources enforced.includedResources
  excludedResources :=
    mergeField listIsZero tenant.excludedResources enforced.excludedResources
  includedClusterScopedResources :=
    mergeField listIsZero tenant.includedClusterScopedResources enforced.includedClusterScopedResources
  excludedClusterScopedResources :=
    mergeField listIsZero tenant.excludedClusterScopedResources enforced.excludedClusterScopedResources
  includedNamespaceScopedResources :=
    mergeField listIsZero tenant.includedNamespaceScopedResources enforced.includedNamespaceScopedResources
  excludedNamespaceScopedResources :=
    mergeField listIsZero tenant.excludedNamespaceScopedResources enforced.excludedNamespaceScopedResources
  storageLocation :=
    mergeField stringIsZero tenant.storageLocation enforced.storageLocation
  ttl := mergeField stringIsZero tenant.ttl enforced.ttl
  snapshotVolumes :=
    mergeField optIsZero tenant.snapshotVolumes enforced.snapshotVolumes
  defaultVolumesToFsBackup :=
    mergeField optIsZero tenant.defaultVolumesToFsBackup enforced.defaultVolumesToFsBackup

/-- status.phase of a NonAdminBackup; unset models the empty string. -/
inductive NonAdminPhase
  | unset
  | new
  | backingOff
  | created
  | deleting
  deriving DecidableEq, Repr

/-- A metav1.Condition; condStatus true models ConditionTrue. -/
structure Condition where
  condType : String
  condStatus : Bool
  reason : String
  message : String
  deriving DecidableEq, Repr

/-- meta.SetStatusCondition from k8s apimachinery (an external library): adds
the condition if missing; updates it if status, reason or message differ;
returns the new list and whether anything changed. -/
def setStatusCondition (conds : List Condition) (c : Condition) : List Condition × Bool :=
  match conds with
  | [] => ([c], true)
  | c' :: rest =>
    if c'.condType = c.condType then
      if c'.condStatus = c.condStatus ∧ c'.reason = c.reason ∧ c'.message = c.message then
        (c' :: rest, false)
      else
        (c :: rest, true)
    else
      let r := setStatusCondition rest c
      (c' :: r.1, r.2)

/-- meta.IsStatusConditionTrue from k8s apimachinery. -/
def isStatusConditionTrue (conds : List Condition) (t : String) : Bool :=
  conds.any (fun c => c.condType == t && c.condStatus)

/-- The velero Backup status (an external type), kept abstract as the phase
string; the controller only deep-copies and structurally compares it. -/
structure BackupStatus where
  phase : String := ""
  deriving DecidableEq, Repr

/-- nacv1alpha1.VeleroBackup: the binding recorded in NonAdminBackup status. -/
structure VeleroBackupRef where
  nacuuid : String := ""
  ns : String := ""
  name : String := ""
  spec : Option BackupSpec := none
  status : Option BackupStatus := none
  deriving DecidableEq, Repr

/-- nacv1alpha1.VeleroDeleteBackupRequest reference in NonAdminBackup status;
the mirrored DeleteBackupRequestStatus is kept abstract as a string. -/
structure VeleroDeleteBackupRequestRef where
  nacuuid : String := ""
  ns : String := ""
  name : String := ""
  status : Option String := none
  deriving DecidableEq, Repr

/-- nacv1alpha1.FileSystemPodVolumeBackups counters. -/
structure FileSystemPodVolumeBackups where
  total : Nat := 0
  new : Nat := 0
  inProgress : Nat := 0
  failed : Nat := 0
  completed : Nat := 0
  deriving DecidableEq, Repr

/-- nacv1alpha1.DataMoverDataUploads counters. -/
structure DataMoverDataUploads where
  total : Nat := 0
  new : Nat := 0
  accepted : Nat := 0
  prepared : Nat := 0
  inProgress : Nat := 0
  canceling : Nat := 0
  canceled : Nat := 0
  failed : Nat := 0
  completed : Nat := 0
  deriving DecidableEq, Repr

/-- NonAdminBackup status; queueInfo holds estimatedQueuePosition. -/
structure NonAdminBackupStatus where
  phase : NonAdminPhase := .unset
  conditions : List Condition := []
  veleroBackup : Option VeleroBackupRef := none
  veleroDeleteBackupRequest : Option VeleroDeleteBackupRequestRef := none
  queueInfo : Option Nat := none
  fileSystemPodVolumeBackups : Option FileSystemPodVolumeBackups := none
  dataMoverDataUploads : Option DataMoverDataUploads := none
  deriving DecidableEq, Repr

/-- NonAdminBackup spec: a tenant-authored BackupSpec plus the deleteBackup flag. -/
structure NonAdminBackupSpec where
  backupSpec : BackupSpec := {}
  deleteBackup : Bool := false
  deriving DecidableEq, Repr

/-- The tenant NonAdminBackup object; ns is its namespace,
deletionTimestampIsSet models a non-zero metadata.deletionTimestamp. -/
structure NonAdminBackup where
  ns : String
  name : String
  uid : String := ""
  labels : List (String × String) := []
  finalizers : List String := []
  deletionTimestampIsSet : Bool := false
  spec : NonAdminBackupSpec := {}
  status : NonAdminBackupStatus := {}
  deriving DecidableEq, Repr

/-- An engine (velero) Backup object in the operator namespace. -/
structure VeleroBackup where
  name : String
  ns : String
  uid : String := ""
  labels : List (String × String) := []
  annotations : List (String × String) := []
  spec : BackupSpec := {}
  status : BackupStatus := {}
  deriving DecidableEq, Repr

instance : Inhabited VeleroBackup := ⟨{ name := "", ns := "" }⟩

/-- A velero DeleteBackupRequest in the operator namespace; its engine-side
status is kept abstract as a string. -/
structure DeleteBackupRequest where
  name : String
  ns : String
  labels : List (String × String) := []
  annotations : List (String × String) := []
  backupName : String := ""
  status : String := ""
  deriving DecidableEq, Repr

/-- A tenant NonAdminRestore, reduced to the field the controller reads
(spec.restoreSpec.backupName) plus its name. -/
structure NonAdminRestore where
  name : String
  backupName : String
  deriving DecidableEq, Repr

/-- The modelled cluster state for one reconciliation of one NonAdminBackup.
veleroBackups, deleteBackupRequests hold the operator-namespace objects;
naBSLVeleroNames maps a tenant NonAdminBackupStorageLocation name to its
promoted velero BSL name; podVolumeBackupPhases and dataUploadPhases are the
phases of the child objects matching the backup-name label selector;
queueResult is the oracle for function.GetBackupQueueInfo (none models a
lookup failure); freshUUID and freshNameSuffix are oracles for
function.GenerateNacObjectUUID and the generate-name suffix. -/
structure ClusterState where
  nab : NonAdminBackup
  veleroBackups : List VeleroBackup := []
  deleteBackupRequests : List DeleteBackupRequest := []
  nonAdminRestores : List NonAdminRestore := []
  naBSLVeleroNames : List (String × String) := []
  podVolumeBackupPhases : List String := []
  dataUploadPhases : List String := []
  queueResult : Option Nat := none
  freshUUID : String := ""
  freshNameSuffix : String := ""
  deriving DecidableEq, Repr

/-- The write operations a reconciliation step can issue. -/
inductive WriteOp
  | nabStatusUpdate (status : NonAdminBackupStatus)
  | nabUpdate (finalizers : List String)
  | nabDelete
  | createBackup (vb : VeleroBackup)
  | deleteBackup (name : String)
  | createDeleteBackupRequest (req : DeleteBackupRequest)
  | deleteDeleteBackupRequest (name : String)
  | deleteNonAdminRestore (name : String)
  deriving DecidableEq, Repr

/-- The (requeue, error) pair a step returns; reconcile.TerminalError is
errTerminal, every other non-nil error is errTransient. -/
inductive StepOutcome
  | ok
  | requeue
  | errTransient (msg : String)
  | errTerminal (msg : String)
  deriving DecidableEq, Repr

/-- Result of one reconciliation step: the successor state, the outcome, and
the API writes performed. -/
structure StepResult where
  state : ClusterState
  outcome : StepOutcome := .ok
  writes : List WriteOp := []
  deriving Repr

/-- The operator-namespace backups carrying the given UUID label. -/
def backupsWithUUID (backups : List VeleroBackup) (uuid : String) : List VeleroBackup :=
  backups.filter (fun vb => lookupKV vb.labels nabOriginNACUUIDLabelKey == some uuid)

/-- Modelled from the spec: function.GetVeleroBackupByLabel
(internal/common/function is not under src/); per spec section 4.3 the lookup
by UUID label returns none for 0 matches, the object for 1 match, and an
error for more than one match. -/
def getVeleroBackupByLabel (backups : List VeleroBackup) (uuid : String) :
    Except String (Option VeleroBackup) :=
  match backupsWithUUID backups uuid with
  | [] => .ok none
  | [vb] => .ok (some vb)
  | _ => .error "multiple VeleroBackup objects found with the same UUID label"

/-- The operator-namespace delete requests carrying the given UUID label. -/
def deleteRequestsWithUUID (reqs : List DeleteBackupRequest) (uuid : String) :
    List DeleteBackupRequest :=
  reqs.filter (fun req => lookupKV req.labels nabOriginNACUUIDLabelKey == some uuid)

/-- Modelled from the spec: function.GetVeleroDeleteBackupRequestByLabel
(internal/common/function is not under src/), same 0/1/many contract as the
backup lookup. -/
def getVeleroDeleteBackupRequestByLabel (reqs : List DeleteBackupRequest) (uuid : String) :
    Except String (Option DeleteBackupRequest) :=
  match deleteRequestsWithUUID reqs uuid with
  | [] => .ok none
  | [req] => .ok (some req)
  | _ => .error "multiple DeleteBackupRequest objects found with the same UUID label"

/-- Modelled from the spec: function.CheckLabelAnnotationValueIsValid
(internal/common/function is not under src/); per spec sections 4.1 and 4.5
the sync label must be present with a non-empty valid label value (length and
character set). -/
def checkLabelAnnotationValueIsValid (m : List (String × String)) (k : String) : Bool :=
  match lookupKV m k with
  | some v =>
    v.length != 0 && v.length ≤ 63 &&
      v.toList.all (fun c => c.isAlphanum || c = '-' || c = '_' || c = '.')
  | none => false

/-- Modelled from the spec: label.GetValidName from the velero package
(external); names used as label-selector values are sanitized to the
label-value grammar (truncated to 63 characters). -/
def getValidLabelValue (s : String) : String := ⟨s.toList.take 63⟩

/-- Modelled from the spec: function.GetNonAdminLabels (not under src/) stamps
the marker label identifying non-admin ownership. -/
def getNonAdminLabels : List (String × String) := [(nabManagedLabelKey, "true")]

/-- Modelled from the spec: function.GetNonAdminBackupAnnotations (not under
src/) records the origin namespace, name and UID of the tenant object. -/
def getNonAdminBackupAnnotationMap (nab : NonAdminBackup) : List (String × String) :=
  [(nabOriginNamespaceAnnotationKey, nab.ns),
   (nabOriginNameAnnotationKey, nab.name),
   (nabOriginUIDAnnotationKey, nab.uid)]

/-- Modelled from the spec: function.ValidateBackupSpec (internal/common/function
is not under src/).  Per spec section 4.2: reject tenant specs naming
namespaces other than the tenant's own; a tenant-named storage location must
exist as a NonAdminBackupStorageLocation in the tenant namespace and have
been promoted to a real engine storage location.  Returns some error message
on failure and none on success. -/
def validateBackupSpecModel (st : ClusterState) : Option String :=
  let bs := st.nab.spec.backupSpec
  if !(bs.includedNamespaces.all (fun x => x == st.nab.ns)) then
    some "NonAdminBackup spec.backupSpec.includedNamespaces can not contain namespaces other than its own"
  else if bs.storageLocation != "" && (lookupKV st.naBSLVeleroNames bs.storageLocation).isNone then
    some "NonAdminBackupStorageLocation not found in the NonAdminBackup namespace"
  else
    none

/-- updateNonAdminPhase (controller lines 851-860), as a pure function on the
phase: returns the new phase and whether it changed. -/
def updateNonAdminPhase (phase newPhase : NonAdminPhase) : NonAdminPhase × Bool :=
  if phase = newPhase then (phase, false) else (newPhase, true)

/-- updateNonAdminBackupVeleroBackupSpecStatus (controller lines 862-888):
ensures the mirror fields exist, structurally compares them with the engine
object's spec and status, and deep-copies them in when they differ. -/
def updateNonAdminBackupVeleroBackupSpecStatus (status : NonAdminBackupStatus)
    (vb : VeleroBackup) : NonAdminBackupStatus × Bool :=
  let ref := status.veleroBackup.getD {}
  let refSpec := ref.spec.getD {}
  let refStatus := ref.status.getD {}
  if refSpec = vb.spec ∧ refStatus = vb.status then
    ({ status with veleroBackup := some { ref with spec := some refSpec, status := some refStatus } },
     false)
  else
    ({ status with veleroBackup := some { ref with spec := some vb.spec, status := some vb.status } },
     true)

/-- updateNonAdminBackupDeleteBackupRequestStatus (controller lines 890-911). -/
def updateNonAdminBackupDeleteBackupRequestStatus (status : NonAdminBackupStatus)
    (req : DeleteBackupRequest) : NonAdminBackupStatus × Bool :=
  let ref := status.veleroDeleteBackupRequest.getD {}
  let refStatus := ref.status.getD ""
  if refStatus = req.status then
    ({ status with veleroDeleteBackupRequest := some { ref with status := some refStatus } },
     false)
  else
    ({ status with veleroDeleteBackupRequest := some { ref with status := some req.status } },
     true)

/-- Number of child objects in the given phase. -/
def countPhase (phases : List String) (p : String) : Nat :=
  phases.countP (fun x => x == p)

/-- One conditional counter assignment (the body of each per-field if block
in the counter updates, e.g. controller lines 941-944): when the target
differs from the current value the field is set and the updated flag raised;
apply current is the unchanged record by structure eta. -/
def setIfChanged {α : Type} (current target : Nat) (apply : Nat → α) : α × Bool :=
  if target ≠ current then (apply target, true) else (apply current, false)

/-- updateNonAdminBackupPodVolumeBackupStatus (controller lines 913-959):
Total is the number of listed items; the per-phase counters tally only the
recognized phases (New, InProgress, Failed, Completed), the default case
counting nothing; the updated flag is raised by any field change. -/
def updateNonAdminBackupPodVolumeBackupStatus (status : NonAdminBackupStatus)
    (phases : List String) : NonAdminBackupStatus × Bool :=
  let c0 := status.fileSystemPodVolumeBackups.getD {}
  let s1 := setIfChanged c0.total phases.length (fun n => { c0 with total := n })
  let s2 := setIfChanged s1.1.new (countPhase phases "New") (fun n => { s1.1 with new := n })
  let s3 := setIfChanged s2.1.inProgress (countPhase phases "InProgress")
    (fun n => { s2.1 with inProgress := n })
  let s4 := setIfChanged s3.1.failed (countPhase phases "Failed")
    (fun n => { s3.1 with failed := n })
  let s5 := setIfChanged s4.1.completed (countPhase phases "Completed")
    (fun n => { s4.1 with completed := n })
  ({ status with fileSystemPodVolumeBackups := some s5.1 },
   s1.2 || s2.2 || s3.2 || s4.2 || s5.2)

/-- updateNonAdminBackupDataUploadStatus (controller lines 961-1035), the
DataUpload analogue over the recognized phases New, Accepted, Prepared,
InProgress, Canceling, Canceled, Failed, Completed. -/
def updateNonAdminBackupDataUploadStatus (status : NonAdminBackupStatus)
    (phases : List String) : NonAdminBackupStatus × Bool :=
  let c0 := status.dataMoverDataUploads.getD {}
  let s1 := setIfChanged c0.total phases.length (fun n => { c0 with total := n })
  let s2 := setIfChanged s1.1.new (countPhase phases "New") (fun n => { s1.1 with new := n })
  let s3 := setIfChanged s2.1.accepted (countPhase phases "Accepted")
    (fun n => { s2.1 with accepted := n })
  let s4 := setIfChanged s3.1.prepared (countPhase phases "Prepared")
    (fun n => { s3.1 with prepared := n })
  let s5 := setIfChanged s4.1.inProgress (countPhase phases "InProgress")
    (fun n => { s4.1 with inProgress := n })
  let s6 := setIfChanged s5.1.canceling (countPhase phases "Canceling")
    (fun n => { s5.1 with canceling := n })
  let s7 := setIfChanged s6.1.canceled (countPhase phases "Canceled")
    (fun n => { s6.1 with canceled := n })
  let s8 := setIfChanged s7.1.failed (countPhase phases "Failed")
    (fun n => { s7.1 with failed := n })
  let s9 := setIfChanged s8.1.completed (countPhase phases "Completed")
    (fun n => { s8.1 with completed := n })
  ({ status with dataMoverDataUploads := some s9.1 },
   s1.2 || s2.2 || s3.2 || s4.2 || s5.2 || s6.2 || s7.2 || s8.2 || s9.2)

/-- The NonAdminBackupReconciler configuration: the admin-enforced backup spec
and the operator (OADP) namespace. -/
structure ReconcilerCfg where
  enforcedBackupSpec : BackupSpec := {}
  oadpNamespace : String := "openshift-adp"
  deriving DecidableEq, Repr

/-- setStatusAndConditionForDeletionAndCallDelete (controller lines 185-214):
sets phase Deleting and condition Deleting=True reason DeletionPending, status
updates when changed, and, if the object has no deletionTimestamp yet, calls
Delete on it (which stamps the timestamp, the finalizer blocking removal) and
requeues.  Delete on an object without the finalizer would remove it outright;
here the object is kept, with only the timestamp stamped. -/
def setStatusAndConditionForDeletionAndCallDelete (_r : ReconcilerCfg) (st : ClusterState) :
    StepResult :=
  let nab := st.nab
  let pr := updateNonAdminPhase nab.status.phase .deleting
  let cr := setStatusCondition nab.status.conditions
    { condType := "Deleting", condStatus := true,
      reason := "DeletionPending", message := "backup accepted for deletion" }
  let status' := { nab.status with phase := pr.1, conditions := cr.1 }
  let nab' := { nab with status := status' }
  let writes1 := if pr.2 || cr.2 then [WriteOp.nabStatusUpdate status'] else []
  if !nab'.deletionTimestampIsSet then
    { state := { st with nab := { nab' with deletionTimestampIsSet := true } },
      outcome := .requeue,
      writes := writes1 ++ [WriteOp.nabDelete] }
  else
    { state := { st with nab := nab' }, outcome := .ok, writes := writes1 }

/-- setStatusForDirectKubernetesAPIDeletion (controller lines 228-251): sets
phase Deleting and condition Deleting=True with the message explaining that
permanent data deletion requires spec.deleteBackup, status updates when
changed, never requeues. -/
def setStatusForDirectKubernetesAPIDeletion (_r : ReconcilerCfg) (st : ClusterState) :
    StepResult :=
  let nab := st.nab
  let pr := updateNonAdminPhase nab.status.phase .deleting
  let cr := setStatusCondition nab.status.conditions
    { condType := "Deleting", condStatus := true,
      reason := "DeletionPending",
      message := "permanent backup deletion requires setting spec.deleteBackup to true" }
  let status' := { nab.status with phase := pr.1, conditions := cr.1 }
  { state := { st with nab := { nab with status := status' } },
    outcome := .ok,
    writes := if pr.2 || cr.2 then [WriteOp.nabStatusUpdate status'] else [] }

/-- deleteNonAdminRestores (controller lines 253-272): deletes every
NonAdminRestore in the tenant namespace whose spec.restoreSpec.backupName
names this backup. -/
def deleteNonAdminRestores (_r : ReconcilerCfg) (st : ClusterState) : StepResult :=
  let toDelete := st.nonAdminRestores.filter (fun nar => nar.backupName == st.nab.name)
  { state :=
      { st with nonAdminRestores :=
          st.nonAdminRestores.filter (fun nar => !(nar.backupName == st.nab.name)) },
    outcome := .ok,
    writes := toDelete.map (fun nar => WriteOp.deleteNonAdminRestore nar.name) }

/-- removeNabFinalizerUponVeleroBackupDeletion (controller lines 457-470):
removes the finalizer from the NonAdminBackup and updates the object. -/
def removeNabFinalizerUponVeleroBackupDeletion (_r : ReconcilerCfg) (st : ClusterState) :
    StepResult :=
  let nab' := { st.nab with
    finalizers := st.nab.finalizers.filter (fun f => !(f == nabFinalizerName)) }
  { state := { st with nab := nab' },
    outcome := .ok,
    writes := [WriteOp.nabUpdate nab'.finalizers] }

/-- createVeleroDeleteBackupRequest (controller lines 291-363): skips unless
the finalizer and the UUID are present; looks up the engine backup by UUID; if
absent removes the finalizer; otherwise ensures a DeleteBackupRequest exists
(generate-name create with the backup-name, backup-uid and UUID labels) and
syncs its status mirror. -/
def createVeleroDeleteBackupRequest (r : ReconcilerCfg) (st : ClusterState) : StepResult :=
  let nab := st.nab
  if !(nab.finalizers.contains nabFinalizerName) ||
      nab.status.veleroBackup.isNone ||
      (nab.status.veleroBackup.getD {}).nacuuid == "" then
    { state := st, outcome := .ok }
  else
    let uuid := (nab.status.veleroBackup.getD {}).nacuuid
    match getVeleroBackupByLabel st.veleroBackups uuid with
    | .error e => { state := st, outcome := .errTransient e }
    | .ok none => removeNabFinalizerUponVeleroBackupDeletion r st
    | .ok (some vb) =>
      match getVeleroDeleteBackupRequestByLabel st.deleteBackupRequests uuid with
      | .error e => { state := st, outcome := .errTransient e }
      | .ok odbr =>
        let created := odbr.isNone
        let dbr := odbr.getD
          { name := vb.name ++ "-" ++ st.freshNameSuffix
            ns := r.oadpNamespace
            labels :=
              [(veleroBackupNameLabelKey, getValidLabelValue vb.name),
               (veleroBackupUIDLabelKey, vb.uid),
               (nabOriginNACUUIDLabelKey, uuid)] ++ getNonAdminLabels
            annotations := getNonAdminBackupAnnotationMap nab
            backupName := vb.name
            status := "" }
        let status1 :=
          if created then
            { nab.status with
              veleroDeleteBackupRequest :=
                some { nacuuid := uuid, ns := r.oadpNamespace, name := dbr.name, status := none } }
          else nab.status
        let sync := updateNonAdminBackupDeleteBackupRequestStatus status1 dbr
        let st1 :=
          if created then { st with deleteBackupRequests := st.deleteBackupRequests ++ [dbr] }
          else st
        { state := { st1 with nab := { nab with status := sync.1 } },
          outcome := .ok,
          writes :=
            (if created then [WriteOp.createDeleteBackupRequest dbr] else []) ++
            (if sync.2 then [WriteOp.nabStatusUpdate sync.1] else []) }

/-- deleteVeleroBackupObjects (controller lines 376-403): skips unless the
UUID is present; looks up the engine backup by UUID; deletes it when found
(metadata-only removal); removes the finalizer when it is absent. -/
def deleteVeleroBackupObjects (r : ReconcilerCfg) (st : ClusterState) : StepResult :=
  let nab := st.nab
  if nab.status.veleroBackup.isNone || (nab.status.veleroBackup.getD {}).nacuuid == "" then
    { state := st, outcome := .ok }
  else
    let uuid := (nab.status.veleroBackup.getD {}).nacuuid
    match getVeleroBackupByLabel st.veleroBackups uuid with
    | .error e => { state := st, outcome := .errTransient e }
    | .ok (some vb) =>
      { state := { st with veleroBackups := st.veleroBackups.filter (fun b => !(b.name == vb.name)) },
        outcome := .ok,
        writes := [WriteOp.deleteBackup vb.name] }
    | .ok none => removeNabFinalizerUponVeleroBackupDeletion r st

/-- deleteDeleteBackupRequestObjects (controller lines 416-437): skips unless
the UUID is present; deletes the DeleteBackupRequest found by UUID, if any. -/
def deleteDeleteBackupRequestObjects (_r : ReconcilerCfg) (st : ClusterState) : StepResult :=
  let nab := st.nab
  if nab.status.veleroBackup.isNone || (nab.status.veleroBackup.getD {}).nacuuid == "" then
    { state := st, outcome := .ok }
  else
    let uuid := (nab.status.veleroBackup.getD {}).nacuuid
    match getVeleroDeleteBackupRequestByLabel st.deleteBackupRequests uuid with
    | .error e => { state := st, outcome := .errTransient e }
    | .ok (some dbr) =>
      { state := { st with
          deleteBackupRequests := st.deleteBackupRequests.filter (fun d => !(d.name == dbr.name)) },
        outcome := .ok,
        writes := [WriteOp.deleteDeleteBackupRequest dbr.name] }
    | .ok none => { state := st, outcome := .ok }

/-- initNabCreate (controller lines 484-503): sets the phase to New when it
is unset, with one status update. -/
def initNabCreate (_r : ReconcilerCfg) (st : ClusterState) : StepResult :=
  if st.nab.status.phase ≠ .unset then { state := st, outcome := .ok }
  else
    let pr := updateNonAdminPhase st.nab.status.phase .new
    if pr.2 then
      let status' := { st.nab.status with phase := pr.1 }
      { state := { st with nab := { st.nab with status := status' } },
        outcome := .ok,
        writes := [WriteOp.nabStatusUpdate status'] }
    else
      { state := st, outcome := .ok }

/-- validateSpec (controller lines 517-560): on validation failure sets phase
BackingOff and condition Accepted=False reason InvalidBackupSpec carrying the
error message, status updates when changed, and returns a terminal error;
on success sets condition Accepted=True reason BackupAccepted. -/
def validateSpec (_r : ReconcilerCfg) (st : ClusterState) : StepResult :=
  match validateBackupSpecModel st with
  | some errMsg =>
    let pr := updateNonAdminPhase st.nab.status.phase .backingOff
    let cr := setStatusCondition st.nab.status.conditions
      { condType := "Accepted", condStatus := false,
        reason := "InvalidBackupSpec", message := errMsg }
    let status' := { st.nab.status with phase := pr.1, conditions := cr.1 }
    { state := { st with nab := { st.nab with status := status' } },
      outcome := .errTerminal errMsg,
      writes := if pr.2 || cr.2 then [WriteOp.nabStatusUpdate status'] else [] }
  | none =>
    let cr := setStatusCondition st.nab.status.conditions
      { condType := "Accepted", condStatus := true,
        reason := "BackupAccepted", message := "backup accepted" }
    let status' := { st.nab.status with conditions := cr.1 }
    { state := { st with nab := { st.nab with status := status' } },
      outcome := .ok,
      writes := if cr.2 then [WriteOp.nabStatusUpdate status'] else [] }

/-- setBackupUUIDInStatus (controller lines 571-602): re-fetches the object
(a no-op here, the state being authoritative) and, when status carries no
NACUUID, stores one: the sync label value if the label is present, otherwise a
freshly generated UUID (function.GenerateNacObjectUUID, an oracle here). -/
def setBackupUUIDInStatus (r : ReconcilerCfg) (st : ClusterState) : StepResult :=
  let nab := st.nab
  if nab.status.veleroBackup.isNone || (nab.status.veleroBackup.getD {}).nacuuid == "" then
    let uuid :=
      match lookupKV nab.labels nabSyncLabelKey with
      | some value => value
      | none => st.freshUUID
    let status' :=
      { nab.status with
        veleroBackup :=
          some { nacuuid := uuid, ns := r.oadpNamespace, name := uuid, spec := none, status := none } }
    { state := { st with nab := { nab with status := status' } },
      outcome := .ok,
      writes := [WriteOp.nabStatusUpdate status'] }
  else
    { state := st, outcome := .ok }

/-- setFinalizerOnNonAdminBackup (controller lines 604-619): adds the
finalizer, before any engine Backup is created, when it is missing. -/
def setFinalizerOnNonAdminBackup (_r : ReconcilerCfg) (st : ClusterState) : StepResult :=
  if st.nab.finalizers.contains nabFinalizerName then
    { state := st, outcome := .ok }
  else
    let nab' := { st.nab with finalizers := st.nab.finalizers ++ [nabFinalizerName] }
    { state := { st with nab := nab' },
      outcome := .ok,
      writes := [WriteOp.nabUpdate nab'.finalizers] }

/-- The controller restrictions applied after the enforced merge when
creating an engine Backup (controller lines 686-718): includedNamespaces
unconditionally set to the tenant namespace, the tenant storage location
resolved through the NonAdminBackupStorageLocation (an error when the Get
fails), and the NAC-internal resources appended to the scoped exclusion
vectors when any scoped filter is set, otherwise to the legacy unified
vector. -/
def nacRestrictBackupSpec (tenantNamespace : String) (naBSLs : List (String × String))
    (merged : BackupSpec) : Except String BackupSpec :=
  let bs1 := { merged with includedNamespaces := [tenantNamespace] }
  let resolved : Except String BackupSpec :=
    if bs1.storageLocation == "" then .ok bs1
    else
      match lookupKV naBSLs bs1.storageLocation with
      | none => .error "NonAdminBackupStorageLocation not found in the NonAdminBackup namespace"
      | some veleroName => .ok { bs1 with storageLocation := veleroName }
  resolved.map (fun bs2 =>
    let haveNewResourceFilterParameters :=
      bs2.includedClusterScopedResources.length > 0 ||
      bs2.excludedClusterScopedResources.length > 0 ||
      bs2.includedNamespaceScopedResources.length > 0 ||
      bs2.excludedNamespaceScopedResources.length > 0
    if haveNewResourceFilterParameters then
      { bs2 with
        excludedNamespaceScopedResources :=
          bs2.excludedNamespaceScopedResources ++ alwaysExcludedNamespacedResources
        excludedClusterScopedResources :=
          bs2.excludedClusterScopedResources ++ alwaysExcludedClusterResources }
    else
      { bs2 with
        excludedResources :=
          bs2.excludedResources ++ alwaysExcludedNamespacedResources ++
            alwaysExcludedClusterResources })

/-- The spec construction applied to the current state: the enforced merge of
the tenant spec, then the controller restrictions above. -/
def buildVeleroBackupSpec (r : ReconcilerCfg) (st : ClusterState) : Except String BackupSpec :=
  nacRestrictBackupSpec st.nab.ns st.naBSLVeleroNames
    (mergeEnforcedBackupSpec st.nab.spec.backupSpec r.enforcedBackupSpec)

/-- The status-projection tail of createVeleroBackupAndSyncWithNonAdminBackup
(controller lines 749-810): queue position (marked updated whenever the
lookup succeeds), phase Created, condition Queued=True reason BackupScheduled,
the engine spec/status mirror, and the PodVolumeBackup and DataUpload
counters; one status update when any flag is set. -/
def projectNonAdminBackupStatus (_r : ReconcilerCfg) (st : ClusterState) (vb : VeleroBackup) :
    StepResult :=
  let nab := st.nab
  let queuePair :=
    match st.queueResult with
    | some pos => (some pos, true)
    | none => (nab.status.queueInfo, false)
  let pr := updateNonAdminPhase nab.status.phase .created
  let cr := setStatusCondition nab.status.conditions
    { condType := "Queued", condStatus := true,
      reason := "BackupScheduled", message := "Created Velero Backup object" }
  let status1 := { nab.status with queueInfo := queuePair.1, phase := pr.1, conditions := cr.1 }
  let syncVB := updateNonAdminBackupVeleroBackupSpecStatus status1 vb
  let syncPVB := updateNonAdminBackupPodVolumeBackupStatus syncVB.1 st.podVolumeBackupPhases
  let syncDU := updateNonAdminBackupDataUploadStatus syncPVB.1 st.dataUploadPhases
  let status4 := syncDU.1
  { state := { st with nab := { nab with status := status4 } },
    outcome := .ok,
    writes :=
      if syncVB.2 || pr.2 || cr.2 || queuePair.2 || syncPVB.2 || syncDU.2 then
        [WriteOp.nabStatusUpdate status4]
      else [] }

/-- createVeleroBackupAndSyncWithNonAdminBackup (controller lines 631-811):
requires the NACUUID; looks the engine Backup up by UUID; when absent either
fails terminally (sync label valid, or phase Created — the engine object
vanished after user-observed completion) or constructs and creates the engine
object; when present verifies the origin annotation; then projects status.
When the terminal branch is entered with phase Created but condition Queued
not True, the Go code dereferences a nil error; that state is unreachable
because phase Created and Queued=True are always written together. -/
def createVeleroBackupAndSyncWithNonAdminBackup (r : ReconcilerCfg) (st : ClusterState) :
    StepResult :=
  let nab := st.nab
  if nab.status.veleroBackup.isNone || (nab.status.veleroBackup.getD {}).nacuuid == "" then
    { state := st,
      outcome := .errTransient "unable to get Velero Backup UUID from NonAdminBackup Status" }
  else
    let uuid := (nab.status.veleroBackup.getD {}).nacuuid
    match getVeleroBackupByLabel st.veleroBackups uuid with
    | .error e => { state := st, outcome := .errTransient e }
    | .ok (some vb) =>
      if lookupKV vb.annotations nabOriginNamespaceAnnotationKey ≠ some nab.ns then
        { state := st,
          outcome := .errTerminal "related Velero Backup does not point to NonAdminBackup namespace" }
      else
        projectNonAdminBackupStatus r st vb
    | .ok none =>
      if checkLabelAnnotationValueIsValid nab.labels nabSyncLabelKey ||
          nab.status.phase == .created then
        let errMsg1 :=
          if checkLabelAnnotationValueIsValid nab.labels nabSyncLabelKey then
            "related Velero Backup to be synced from does not exist"
          else ""
        let errMsg :=
          if isStatusConditionTrue nab.status.conditions "Queued" then
            "NonAdminBackup is finalized and its associated Velero Backup has been removed. Please create a new NonAdminBackup to initiate a new backup"
          else errMsg1
        let pr := updateNonAdminPhase nab.status.phase .backingOff
        let cr := setStatusCondition nab.status.conditions
          { condType := "Accepted", condStatus := false,
            reason := "VeleroBackupNotFound", message := errMsg }
        let status' := { nab.status with phase := pr.1, conditions := cr.1 }
        { state := { st with nab := { nab with status := status' } },
          outcome := .errTerminal errMsg,
          writes := if pr.2 || cr.2 then [WriteOp.nabStatusUpdate status'] else [] }
      else
        match buildVeleroBackupSpec r st with
        | .error e => { state := st, outcome := .errTransient e }
        | .ok bs =>
          let vb : VeleroBackup :=
            { name := uuid
              ns := r.oadpNamespace
              labels := getNonAdminLabels ++ [(nabOriginNACUUIDLabelKey, uuid)]
              annotations := getNonAdminBackupAnnotationMap nab
              spec := bs
              status := {} }
          let st1 := { st with veleroBackups := st.veleroBackups ++ [vb] }
          let res := projectNonAdminBackupStatus r st1 vb
          { res with writes := WriteOp.createBackup vb :: res.writes }

/-- Names for the nonAdminBackupReconcileStepFunction values appearing in the
reconcile step lists. -/
inductive StepTag
  | setStatusAndConditionForDeletionAndCallDelete
  | deleteNonAdminRestores
  | createVeleroDeleteBackupRequest
  | setStatusForDirectKubernetesAPIDeletion
  | deleteDeleteBackupRequestObjects
  | deleteVeleroBackupObjects
  | initNabCreate
  | validateSpec
  | setBackupUUIDInStatus
  | setFinalizerOnNonAdminBackup
  | createVeleroBackupAndSyncWithNonAdminBackup
  deriving DecidableEq, Repr

/-- Dispatch a step tag to its step function. -/
def runStep (r : ReconcilerCfg) (tag : StepTag) (st : ClusterState) : StepResult :=
  match tag with
  | .setStatusAndConditionForDeletionAndCallDelete =>
    setStatusAndConditionForDeletionAndCallDelete r st
  | .deleteNonAdminRestores => deleteNonAdminRestores r st
  | .createVeleroDeleteBackupRequest => createVeleroDeleteBackupRequest r st
  | .setStatusForDirectKubernetesAPIDeletion => setStatusForDirectKubernetesAPIDeletion r st
  | .deleteDeleteBackupRequestObjects => deleteDeleteBackupRequestObjects r st
  | .deleteVeleroBackupObjects => deleteVeleroBackupObjects r st
  | .initNabCreate => initNabCreate r st
  | .validateSpec => validateSpec r st
  | .setBackupUUIDInStatus => setBackupUUIDInStatus r st
  | .setFinalizerOnNonAdminBackup => setFinalizerOnNonAdminBackup r st
  | .createVeleroBackupAndSyncWithNonAdminBackup =>
    createVeleroBackupAndSyncWithNonAdminBackup r st

/-- The four reconciliation paths of the Reconcile switch. -/
inductive ReconcilePath
  | gracefulDelete
  | directDelete
  | syncImport
  | createUpdate
  deriving DecidableEq, Repr

/-- The ordered step list of each path (controller lines 117-158). -/
def pathSteps : ReconcilePath → List StepTag
  | .gracefulDelete =>
    [.setStatusAndConditionForDeletionAndCallDelete,
     .deleteNonAdminRestores,
     .createVeleroDeleteBackupRequest]
  | .directDelete =>
    [.setStatusForDirectKubernetesAPIDeletion,
     .deleteDeleteBackupRequestObjects,
     .deleteVeleroBackupObjects]
  | .syncImport =>
    [.setBackupUUIDInStatus,
     .setFinalizerOnNonAdminBackup,
     .createVeleroBackupAndSyncWithNonAdminBackup]
  | .createUpdate =>
    [.initNabCreate,
     .validateSpec,
     .setBackupUUIDInStatus,
     .setFinalizerOnNonAdminBackup,
     .createVeleroBackupAndSyncWithNonAdminBackup]

/-- Every step tag, grouped by path. -/
def allStepTags : List StepTag :=
  pathSteps .gracefulDelete ++ pathSteps .directDelete ++ pathSteps .createUpdate

/-- The path-selection switch of Reconcile (controller lines 117-158), the
first case taking precedence over the next. -/
def selectPath (nab : NonAdminBackup) : ReconcilePath :=
  if nab.spec.deleteBackup then .gracefulDelete
  else if nab.deletionTimestampIsSet then .directDelete
  else if checkLabelAnnotationValueIsValid nab.labels nabSyncLabelKey then .syncImport
  else .createUpdate

/-- Result of one reconciliation pass: final state, outcome of the pass, and
all writes performed, in order. -/
structure PassResult where
  state : ClusterState
  outcome : StepOutcome
  writes : List WriteOp
  deriving Repr

/-- The step-execution loop of Reconcile (controller lines 161-168): on error
abort the pass; on requeue abort and enqueue; otherwise proceed. -/
def runSteps (r : ReconcilerCfg) : List StepTag → ClusterState → List WriteOp → PassResult
  | [], st, ws => { state := st, outcome := .ok, writes := ws }
  | tag :: rest, st, ws =>
    let res := runStep r tag st
    match res.outcome with
    | .ok => runSteps r rest res.state (ws ++ res.writes)
    | o => { state := res.state, outcome := o, writes := ws ++ res.writes }

/-- One reconciliation pass over an existing NonAdminBackup: select the path
fresh from the current object and execute its steps in order. -/
def reconcile (r : ReconcilerCfg) (st : ClusterState) : PassResult :=
  runSteps r (pathSteps (selectPath st.nab)) st []

/-- The engine Backup objects a list of writes creates. -/
def createdBackups (ws : List WriteOp) : List VeleroBackup :=
  ws.filterMap (fun w => match w with | .createBackup vb => some vb | _ => none)

/-- Whether a write op is a tenant status update. -/
def WriteOp.isNabStatusUpdate : WriteOp → Bool
  | .nabStatusUpdate _ => true
  | _ => false

/-- Whether an engine backup bound to the NAB status UUID exists in the state. -/
def engineBackupExists (st : ClusterState) : Bool :=
  match st.nab.status.veleroBackup with
  | some ref => !(backupsWithUUID st.veleroBackups ref.nacuuid).isEmpty
  | none => false

/-- meta.FindStatusCondition: the first condition with the given type. -/
def findCondition (conds : List Condition) (t : String) : Option Condition :=
  match conds with
  | [] => none
  | c :: rest => if c.condType = t then some c else findCondition rest t

/-- Whether a step outcome is a terminal error (retry suppressed). -/
def StepOutcome.isTerminal : StepOutcome → Bool
  | .errTerminal _ => true
  | _ => false

/-- The PodVolumeBackup counters the projection computes for a phase list. -/
def pvbCounters (phases : List String) : FileSystemPodVolumeBackups where
  total := phases.length
  new := countPhase phases "New"
  inProgress := countPhase phases "InProgress"
  failed := countPhase phases "Failed"
  completed := countPhase phases "Completed"

/-- The DataUpload counters the projection computes for a phase list. -/
def duCounters (phases : List String) : DataMoverDataUploads where
  total := phases.length
  new := countPhase phases "New"
  accepted := countPhase phases "Accepted"
  prepared := countPhase phases "Prepared"
  inProgress := countPhase phases "InProgress"
  canceling := countPhase phases "Canceling"
  canceled := countPhase phases "Canceled"
  failed := countPhase phases "Failed"
  completed := countPhase phases "Completed"

/-- The phase DAG of spec invariant I5: New to BackingOff or Created,
Created to Deleting, BackingOff to Deleting. -/
def specPhaseDAG (a b : NonAdminPhase) : Bool :=
  (a == .new && b == .backingOff) || (a == .new && b == .created) ||
  (a == .created && b == .deleting) || (a == .backingOff && b == .deleting)

/-! ## Lemmas about the child-resource counter projections -/

theorem setIfChanged_fst {α : Type} (current target : Nat) (apply : Nat → α) :
    (setIfChanged current target apply).1 = apply target := by
  unfold setIfChanged
  split_ifs with h
  · rfl
  · rw [not_ne_iff.mp h]

theorem setIfChanged_snd {α : Type} (current target : Nat) (apply : Nat → α) :
    (setIfChanged current target apply).2 = decide (target ≠ current) := by
  unfold setIfChanged
  split_ifs with h <;> simp [h]

theorem updatePVB_fst (status : NonAdminBackupStatus) (phases : List String) :
    (updateNonAdminBackupPodVolumeBackupStatus status phases).1 =
      { status with fileSystemPodVolumeBackups := some (pvbCounters phases) } := by
  simp only [updateNonAdminBackupPodVolumeBackupStatus, setIfChanged_fst]
  rfl

theorem updateDU_fst (status : NonAdminBackupStatus) (phases : List String) :
    (updateNonAdminBackupDataUploadStatus status phases).1 =
      { status with dataMoverDataUploads := some (duCounters phases) } := by
  simp only [updateNonAdminBackupDataUploadStatus, setIfChanged_fst]
  rfl

theorem pvb_phase_sum_le_length (l : List String) :
    countPhase l "New" + countPhase l "InProgress" + countPhase l "Failed" +
      countPhase l "Completed" ≤ l.length := by
  induction l with
  | nil => simp [countPhase]
  | cons x xs ih =>
    simp only [countPhase, List.countP_cons, List.length_cons] at *
    have hx : (if (x == "New") = true then 1 else 0) +
        (if (x == "InProgress") = true then 1 else 0) +
        (if (x == "Failed") = true then 1 else 0) +
        (if (x == "Completed") = true then 1 else 0) ≤ 1 := by
      rcases Decidable.em (x = "New") with h1 | h1
      · subst h1; decide
      rcases Decidable.em (x = "InProgress") with h2 | h2
      · subst h2; decide
      rcases Decidable.em (x = "Failed") with h3 | h3
      · subst h3; decide
      rcases Decidable.em (x = "Completed") with h4 | h4
      · subst h4; decide
      simp [beq_iff_eq, h1, h2, h3, h4]
    omega

theorem du_phase_sum_le_length (l : List String) :
    countPhase l "New" + countPhase l "Accepted" + countPhase l "Prepared" +
      countPhase l "InProgress" + countPhase l "Canceling" + countPhase l "Canceled" +
      countPhase l "Failed" + countPhase l "Completed" ≤ l.length := by
  induction l with
  | nil => simp [countPhase]
  | cons x xs ih =>
    simp only [countPhase, List.countP_cons, List.length_cons] at *
    have hx : (if (x == "New") = true then 1 else 0) +
        (if (x == "Accepted") = true then 1 else 0) +
        (if (x == "Prepared") = true then 1 else 0) +
        (if (x == "InProgress") = true then 1 else 0) +
        (if (x == "Canceling") = true then 1 else 0) +
        (if (x == "Canceled") = true then 1 else 0) +
        (if (x == "Failed") = true then 1 else 0) +
        (if (x == "Completed") = true then 1 else 0) ≤ 1 := by
      rcases Decidable.em (x = "New") with h1 | h1
      · subst h1; decide
      rcases Decidable.em (x = "Accepted") with h2 | h2
      · subst h2; decide
      rcases Decidable.em (x = "Prepared") with h3 | h3
      · subst h3; decide
      rcases Decidable.em (x = "InProgress") with h4 | h4
      · subst h4; decide
      rcases Decidable.em (x = "Canceling") with h5 | h5
      · subst h5; decide
      rcases Decidable.em (x = "Canceled") with h6 | h6
      · subst h6; decide
      rcases Decidable.em (x = "Failed") with h7 | h7
      · subst h7; decide
      rcases Decidable.em (x = "Completed") with h8 | h8
      · subst h8; decide
      simp [beq_iff_eq, h1, h2, h3, h4, h5, h6, h7, h8]
    omega

/-- C10: In the projected child-resource counters, Total always equals the
number of listed PodVolumeBackup (respectively DataUpload) objects, while the
per-phase counters count only the recognized phases; an object in an
unrecognized phase increments Total but no per-phase counter, so the sum of
the per-phase counters is at most Total after every update. -/
theorem C10_child_resource_counters (status status' : NonAdminBackupStatus)
    (pvbPhases duPhases : List String) :
    (((updateNonAdminBackupPodVolumeBackupStatus status pvbPhases).1.fileSystemPodVolumeBackups).getD {}
        = pvbCounters pvbPhases) ∧
    (pvbCounters pvbPhases).total = pvbPhases.length ∧
    (pvbCounters pvbPhases).new = countPhase pvbPhases "New" ∧
    (pvbCounters pvbPhases).inProgress = countPhase pvbPhases "InProgress" ∧
    (pvbCounters pvbPhases).failed = countPhase pvbPhases "Failed" ∧
    (pvbCounters pvbPhases).completed = countPhase pvbPhases "Completed" ∧
    (pvbCounters pvbPhases).new + (pvbCounters pvbPhases).inProgress +
        (pvbCounters pvbPhases).failed + (pvbCounters pvbPhases).completed ≤
      (pvbCounters pvbPhases).total ∧
    (((updateNonAdminBackupDataUploadStatus status' duPhases).1.dataMoverDataUploads).getD {}
        = duCounters duPhases) ∧
    (duCounters duPhases).total = duPhases.length ∧
    (duCounters duPhases).new = countPhase duPhases "New" ∧
    (duCounters duPhases).accepted = countPhase duPhases "Accepted" ∧
    (duCounters duPhases).prepared = countPhase duPhases "Prepared" ∧
    (duCounters duPhases).inProgress = countPhase duPhases "InProgress" ∧
    (duCounters duPhases).canceling = countPhase duPhases "Canceling" ∧
    (duCounters duPhases).canceled = countPhase duPhases "Canceled" ∧
    (duCounters duPhases).failed = countPhase duPhases "Failed" ∧
    (duCounters duPhases).completed = countPhase duPhases "Completed" ∧
    (duCounters duPhases).new + (duCounters duPhases).accepted +
        (duCounters duPhases).prepared + (duCounters duPhases).inProgress +
        (duCounters duPhases).canceling + (duCounters duPhases).canceled +
        (duCounters duPhases).failed + (duCounters duPhases).completed ≤
      (duCounters duPhases).total := by
  refine ⟨?_, rfl, rfl, rfl, rfl, rfl, ?_, ?_, rfl, rfl, rfl, rfl, rfl, rfl, rfl, rfl, rfl, ?_⟩
  · rw [updatePVB_fst]; rfl
  · exact pvb_phase_sum_le_length pvbPhases
  · rw [updateDU_fst]; rfl
  · exact du_phase_sum_le_length duPhases

/-! ## Concrete states used by witnesses and counterexamples -/

/-- A fresh tenant NonAdminBackup in namespace team-a, nothing else in the
cluster; the happy-path starting state. -/
def happyState : ClusterState :=
  { nab := { ns := "team-a", name := "db", uid := "u1" }
    queueResult := some 1
    freshUUID := "b1f0c8e2" }

/-- A configuration with no enforced spec fields. -/
def happyCfg : ReconcilerCfg := {}

/-- The engine Backup the happy-path pass creates. -/
def happyBackup : VeleroBackup :=
  (createdBackups (reconcile happyCfg happyState).writes).headI

/-- A tenant object carrying a valid sync label whose engine Backup does not
exist, after the UUID was adopted into status. -/
def syncState : ClusterState :=
  { nab := { ns := "team-a", name := "db", uid := "u1"
             labels := [(nabSyncLabelKey, "b1f0c8e2")]
             finalizers := [nabFinalizerName]
             status := { phase := .new
                         veleroBackup :=
                           some { nacuuid := "b1f0c8e2", ns := "openshift-adp", name := "b1f0c8e2" } } } }

/-- A tenant object in phase New being deleted through the API
(deletionTimestamp set, deleteBackup false). -/
def directDeleteNewState : ClusterState :=
  { nab := { ns := "team-a", name := "db", uid := "u1"
             deletionTimestampIsSet := true
             finalizers := [nabFinalizerName]
             status := { phase := .new } } }

/-! ## C3: path selection -/

/-- C3: On every reconciliation of an existing NonAdminBackup, exactly one of
four step sequences is selected, by this precedence evaluated fresh each
pass: spec.deleteBackup true selects the graceful-delete path; otherwise a
non-zero deletionTimestamp selects the direct-delete path; otherwise a valid
non-empty sync label selects the sync-import path; otherwise the
create/update path runs. -/
theorem C3_path_selection_precedence (nab : NonAdminBackup) :
    (selectPath nab = .gracefulDelete ↔ nab.spec.deleteBackup = true) ∧
    (selectPath nab = .directDelete ↔
      (nab.spec.deleteBackup = false ∧ nab.deletionTimestampIsSet = true)) ∧
    (selectPath nab = .syncImport ↔
      (nab.spec.deleteBackup = false ∧ nab.deletionTimestampIsSet = false ∧
       checkLabelAnnotationValueIsValid nab.labels nabSyncLabelKey = true)) ∧
    (selectPath nab = .createUpdate ↔
      (nab.spec.deleteBackup = false ∧ nab.deletionTimestampIsSet = false ∧
       checkLabelAnnotationValueIsValid nab.labels nabSyncLabelKey = false)) := by
  unfold selectPath
  cases h1 : nab.spec.deleteBackup <;> cases h2 : nab.deletionTimestampIsSet <;>
    cases h3 : checkLabelAnnotationValueIsValid nab.labels nabSyncLabelKey <;>
      simp [h1, h2, h3]

/-! ## C5: phase transitions -/

/-- C5 counterexample: reconciling a NonAdminBackup in phase New whose
deletionTimestamp is set moves the phase from New directly to Deleting, an
edge the claimed DAG does not contain. -/
theorem C5_counterexample :
    directDeleteNewState.nab.status.phase = .new ∧
    (reconcile happyCfg directDeleteNewState).state.nab.status.phase = .deleting ∧
    specPhaseDAG .new .deleting = false := by decide

/-! ## C6: sync-import path versus create/update path -/

/-- C6 counterexample: the sync-import step sequence is not the create/update
sequence with one step's behavior changed; it has three steps against five
(phase initialization and spec validation are missing). -/
theorem C6_counterexample :
    (pathSteps .syncImport).length = 3 ∧ (pathSteps .createUpdate).length = 5 := by decide

/-- C6 amended: the sync-import path consists of the final three steps of the
create/update path, omitting phase initialization and spec validation; and
the shared engine-object step refuses to create: with a valid sync label,
when lookup by UUID finds no engine Backup, it fails terminally, creating
nothing. -/
theorem C6_sync_path_amended :
    pathSteps .syncImport = (pathSteps .createUpdate).drop 2 ∧
    (∀ (r : ReconcilerCfg) (st : ClusterState) (ref : VeleroBackupRef),
      st.nab.status.veleroBackup = some ref →
      ref.nacuuid ≠ "" →
      checkLabelAnnotationValueIsValid st.nab.labels nabSyncLabelKey = true →
      backupsWithUUID st.veleroBackups ref.nacuuid = [] →
      ((runStep r .createVeleroBackupAndSyncWithNonAdminBackup st).outcome.isTerminal = true ∧
       createdBackups (runStep r .createVeleroBackupAndSyncWithNonAdminBackup st).writes = [] ∧
       (runStep r .createVeleroBackupAndSyncWithNonAdminBackup st).state.veleroBackups =
         st.veleroBackups)) := by
  refine ⟨by decide, ?_⟩
  intro r st ref h1 h2 h3 h4
  simp only [runStep, createVeleroBackupAndSyncWithNonAdminBackup, h1, Option.isNone_some,
    Option.getD_some, Bool.false_or, getVeleroBackupByLabel, h4, h3, beq_eq_false_iff_ne, ne_eq,
    if_false, Bool.true_or, if_true]
  split
  · simp_all
  · split <;> simp [createdBackups, StepOutcome.isTerminal]

/-! ## C9: idempotence of repeated reconciliation -/

/-- C9 counterexample: after one successful happy-path pass with no external
change, the next pass still performs an API write (the status update forced by
the queue-position refresh), although it leaves the state unchanged. -/
theorem C9_counterexample :
    (reconcile happyCfg happyState).outcome = .ok ∧
    (reconcile happyCfg (reconcile happyCfg happyState).state).state =
      (reconcile happyCfg happyState).state ∧
    (reconcile happyCfg (reconcile happyCfg happyState).state).writes ≠ [] := by decide

/-- The Accepted=True condition the validate step writes. -/
def acceptedTrueCondition : Condition :=
  { condType := "Accepted", condStatus := true,
    reason := "BackupAccepted", message := "backup accepted" }

/-- The Queued=True condition the projection step writes. -/
def queuedTrueCondition : Condition :=
  { condType := "Queued", condStatus := true,
    reason := "BackupScheduled", message := "Created Velero Backup object" }

/-- The engine Backup of a settled create/update pass. -/
def steadyBackup (ns nm uid buid uuid : String) (espec : BackupSpec)
    (estatus : BackupStatus) : VeleroBackup :=
  { name := uuid
    ns := "openshift-adp"
    uid := buid
    labels := getNonAdminLabels ++ [(nabOriginNACUUIDLabelKey, uuid)]
    annotations :=
      [(nabOriginNamespaceAnnotationKey, ns),
       (nabOriginNameAnnotationKey, nm),
       (nabOriginUIDAnnotationKey, uid)]
    spec := espec
    status := estatus }

/-- The family of states reached after a successful create/update pass with
no external change: phase Created, both conditions present, UUID bound,
finalizer present, the engine Backup alive with a matching origin annotation,
status mirror and counters equal to what the projection computes, and the
queue oracle agreeing with the stored position. -/
def steadyState (ns nm uid buid uuid : String) (tenantBS espec : BackupSpec)
    (estatus : BackupStatus) (pvbs dus : List String) (qpos : Nat)
    (bsls : List (String × String)) : ClusterState :=
  { nab :=
      { ns := ns
        name := nm
        uid := uid
        labels := []
        finalizers := [nabFinalizerName]
        deletionTimestampIsSet := false
        spec := { backupSpec := tenantBS, deleteBackup := false }
        status :=
          { phase := .created
            conditions := [acceptedTrueCondition, queuedTrueCondition]
            veleroBackup :=
              some { nacuuid := uuid, ns := "openshift-adp", name := uuid,
                     spec := some espec, status := some estatus }
            veleroDeleteBackupRequest := none
            queueInfo := some qpos
            fileSystemPodVolumeBackups := some (pvbCounters pvbs)
            dataMoverDataUploads := some (duCounters dus) } }
    veleroBackups := [steadyBackup ns nm uid buid uuid espec estatus]
    deleteBackupRequests := []
    nonAdminRestores := []
    naBSLVeleroNames := bsls
    podVolumeBackupPhases := pvbs
    dataUploadPhases := dus
    queueResult := some qpos
    freshUUID := ""
    freshNameSuffix := "" }

/-- C9 amended: reconciling a NonAdminBackup that has not changed since a
successful create/update pass performs exactly one API write, a status update
with unchanged content, because the queue-position refresh marks the status
updated whenever the queue lookup succeeds; every other step skips its write,
and the pass leaves the cluster state unchanged. -/
theorem C9_amended (ns nm uid buid uuid : String) (tenantBS espec : BackupSpec)
    (estatus : BackupStatus) (pvbs dus : List String) (qpos : Nat)
    (bsls : List (String × String)) (r : ReconcilerCfg)
    (huuid : uuid ≠ "")
    (hvalid : validateBackupSpecModel
      (steadyState ns nm uid buid uuid tenantBS espec estatus pvbs dus qpos bsls) = none) :
    (reconcile r (steadyState ns nm uid buid uuid tenantBS espec estatus pvbs dus qpos bsls)).outcome
        = .ok ∧
    (reconcile r (steadyState ns nm uid buid uuid tenantBS espec estatus pvbs dus qpos bsls)).state
        = steadyState ns nm uid buid uuid tenantBS espec estatus pvbs dus qpos bsls ∧
    (reconcile r (steadyState ns nm uid buid uuid tenantBS espec estatus pvbs dus qpos bsls)).writes
        = [WriteOp.nabStatusUpdate
            (steadyState ns nm uid buid uuid tenantBS espec estatus pvbs dus qpos bsls).nab.status] := by
  have h1 : runStep r .initNabCreate
      (steadyState ns nm uid buid uuid tenantBS espec estatus pvbs dus qpos bsls) =
      { state := steadyState ns nm uid buid uuid tenantBS espec estatus pvbs dus qpos bsls,
        outcome := .ok, writes := [] } := by
    simp [runStep, initNabCreate, steadyState]
  have h2 : runStep r .validateSpec
      (steadyState ns nm uid buid uuid tenantBS espec estatus pvbs dus qpos bsls) =
      { state := steadyState ns nm uid buid uuid tenantBS espec estatus pvbs dus qpos bsls,
        outcome := .ok, writes := [] } := by
    simp only [runStep, validateSpec, hvalid]
    simp [steadyState, setStatusCondition, acceptedTrueCondition, queuedTrueCondition]
  have h3 : runStep r .setBackupUUIDInStatus
      (steadyState ns nm uid buid uuid tenantBS espec estatus pvbs dus qpos bsls) =
      { state := steadyState ns nm uid buid uuid tenantBS espec estatus pvbs dus qpos bsls,
        outcome := .ok, writes := [] } := by
    simp [runStep, setBackupUUIDInStatus, steadyState, huuid]
  have h4 : runStep r .setFinalizerOnNonAdminBackup
      (steadyState ns nm uid buid uuid tenantBS espec estatus pvbs dus qpos bsls) =
      { state := steadyState ns nm uid buid uuid tenantBS espec estatus pvbs dus qpos bsls,
        outcome := .ok, writes := [] } := by
    simp [runStep, setFinalizerOnNonAdminBackup, steadyState]
  have h5 : runStep r .createVeleroBackupAndSyncWithNonAdminBackup
      (steadyState ns nm uid buid uuid tenantBS espec estatus pvbs dus qpos bsls) =
      { state := steadyState ns nm uid buid uuid tenantBS espec estatus pvbs dus qpos bsls,
        outcome := .ok,
        writes := [WriteOp.nabStatusUpdate
          (steadyState ns nm uid buid uuid tenantBS espec estatus pvbs dus qpos bsls).nab.status] } := by
    simp [runStep, createVeleroBackupAndSyncWithNonAdminBackup, steadyState, steadyBackup,
      getVeleroBackupByLabel, backupsWithUUID, lookupKV, getNonAdminLabels,
      nabManagedLabelKey, nabOriginNACUUIDLabelKey, nabOriginNamespaceAnnotationKey,
      nabOriginNameAnnotationKey, nabOriginUIDAnnotationKey,
      projectNonAdminBackupStatus, updateNonAdminPhase,
      setStatusCondition, queuedTrueCondition, acceptedTrueCondition,
      updateNonAdminBackupVeleroBackupSpecStatus,
      updateNonAdminBackupPodVolumeBackupStatus, updateNonAdminBackupDataUploadStatus,
      setIfChanged, pvbCounters, duCounters, huuid]
  have hsel : selectPath
      (steadyState ns nm uid buid uuid tenantBS espec estatus pvbs dus qpos bsls).nab =
      .createUpdate := by
    simp [selectPath, steadyState, checkLabelAnnotationValueIsValid, lookupKV]
  unfold reconcile
  rw [hsel]
  simp only [pathSteps, runSteps, h1, h2, h3, h4, h5]
  exact ⟨trivial, trivial, by simp⟩

/-- Witness for C9 amended at a concrete settled state. -/
theorem C9_amended_witness :
    ("b1f0c8e2" : String) ≠ "" ∧
    validateBackupSpecModel
      (steadyState "team-a" "db" "u1" "vb1" "b1f0c8e2" {} {} {} ["Completed"] [] 1 []) = none ∧
    (reconcile {} (steadyState "team-a" "db" "u1" "vb1" "b1f0c8e2" {} {} {} ["Completed"] [] 1 [])).writes
      = [WriteOp.nabStatusUpdate
          (steadyState "team-a" "db" "u1" "vb1" "b1f0c8e2" {} {} {} ["Completed"] [] 1 []).nab.status] :=
  ⟨by decide, by decide,
   (C9_amended "team-a" "db" "u1" "vb1" "b1f0c8e2" {} {} {} ["Completed"] [] 1 [] {}
     (by decide) (by decide)).2.2⟩

/-- Witness for C6 amended: a sync-labelled tenant whose engine Backup is
absent makes the engine step fail terminally. -/
theorem C6_sync_path_amended_witness :
    syncState.nab.status.veleroBackup =
      some { nacuuid := "b1f0c8e2", ns := "openshift-adp", name := "b1f0c8e2" } ∧
    ("b1f0c8e2" : String) ≠ "" ∧
    checkLabelAnnotationValueIsValid syncState.nab.labels nabSyncLabelKey = true ∧
    backupsWithUUID syncState.veleroBackups "b1f0c8e2" = [] ∧
    (runStep {} .createVeleroBackupAndSyncWithNonAdminBackup syncState).outcome.isTerminal = true :=
  ⟨rfl, by decide, by decide, by decide,
   (C6_sync_path_amended.2 {} syncState
     { nacuuid := "b1f0c8e2", ns := "openshift-adp", name := "b1f0c8e2" }
     rfl (by decide) (by decide) (by decide)).1⟩

/-! ## Per-step facts used by several claims -/

theorem runStep_preserves_env (r : ReconcilerCfg) (tag : StepTag) (st : ClusterState) :
    (runStep r tag st).state.nab.ns = st.nab.ns ∧
    (runStep r tag st).state.nab.name = st.nab.name ∧
    (runStep r tag st).state.nab.uid = st.nab.uid ∧
    (runStep r tag st).state.nab.labels = st.nab.labels ∧
    (runStep r tag st).state.nab.spec = st.nab.spec ∧
    (runStep r tag st).state.naBSLVeleroNames = st.naBSLVeleroNames := by
  cases tag <;>
    simp only [runStep, setStatusAndConditionForDeletionAndCallDelete, deleteNonAdminRestores,
      createVeleroDeleteBackupRequest, setStatusForDirectKubernetesAPIDeletion,
      deleteDeleteBackupRequestObjects, deleteVeleroBackupObjects, initNabCreate, validateSpec,
      setBackupUUIDInStatus, setFinalizerOnNonAdminBackup,
      createVeleroBackupAndSyncWithNonAdminBackup, removeNabFinalizerUponVeleroBackupDeletion,
      projectNonAdminBackupStatus] <;>
    (repeat' split) <;> simp_all

theorem updateVB_fst_phase (s : NonAdminBackupStatus) (vb : VeleroBackup) :
    (updateNonAdminBackupVeleroBackupSpecStatus s vb).1.phase = s.phase := by
  simp only [updateNonAdminBackupVeleroBackupSpecStatus]
  split <;> rfl

theorem updateDBR_fst_phase (s : NonAdminBackupStatus) (d : DeleteBackupRequest) :
    (updateNonAdminBackupDeleteBackupRequestStatus s d).1.phase = s.phase := by
  simp only [updateNonAdminBackupDeleteBackupRequestStatus]
  split <;> rfl

theorem updatePVB_fst_phase (s : NonAdminBackupStatus) (phases : List String) :
    (updateNonAdminBackupPodVolumeBackupStatus s phases).1.phase = s.phase := by
  rw [updatePVB_fst]

theorem updateDU_fst_phase (s : NonAdminBackupStatus) (phases : List String) :
    (updateNonAdminBackupDataUploadStatus s phases).1.phase = s.phase := by
  rw [updateDU_fst]

/-- C5 amended: every phase change a reconciliation step makes sets the phase
to one of New, BackingOff, Created or Deleting, with New written only when
the phase was unset; the reconciler is not restricted to the DAG of I5 (for
example New to Deleting on the delete paths, Created to BackingOff when the
engine backup vanishes, and BackingOff to Created after a spec fix all
occur). -/
theorem C5_amended_phase_targets (r : ReconcilerCfg) (tag : StepTag) (st : ClusterState)
    (hchange : (runStep r tag st).state.nab.status.phase ≠ st.nab.status.phase) :
    (st.nab.status.phase = .unset ∧ (runStep r tag st).state.nab.status.phase = .new) ∨
    (runStep r tag st).state.nab.status.phase = .backingOff ∨
    (runStep r tag st).state.nab.status.phase = .created ∨
    (runStep r tag st).state.nab.status.phase = .deleting := by
  cases tag <;>
    (simp only [runStep, setStatusAndConditionForDeletionAndCallDelete, deleteNonAdminRestores,
      createVeleroDeleteBackupRequest, setStatusForDirectKubernetesAPIDeletion,
      deleteDeleteBackupRequestObjects, deleteVeleroBackupObjects, initNabCreate, validateSpec,
      setBackupUUIDInStatus, setFinalizerOnNonAdminBackup,
      createVeleroBackupAndSyncWithNonAdminBackup, removeNabFinalizerUponVeleroBackupDeletion,
      projectNonAdminBackupStatus, updateNonAdminPhase,
      updateVB_fst_phase, updateDBR_fst_phase, updatePVB_fst_phase, updateDU_fst_phase]
      at hchange ⊢) <;>
    (repeat' split at hchange) <;> simp_all [updateVB_fst_phase, updateDBR_fst_phase,
      updatePVB_fst_phase, updateDU_fst_phase]

/-- Witness for C5 amended: initializing an unset phase changes it to New. -/
theorem C5_amended_phase_targets_witness :
    (runStep happyCfg .initNabCreate happyState).state.nab.status.phase ≠
      happyState.nab.status.phase ∧
    ((happyState.nab.status.phase = .unset ∧
      (runStep happyCfg .initNabCreate happyState).state.nab.status.phase = .new) ∨
     (runStep happyCfg .initNabCreate happyState).state.nab.status.phase = .backingOff ∨
     (runStep happyCfg .initNabCreate happyState).state.nab.status.phase = .created ∨
     (runStep happyCfg .initNabCreate happyState).state.nab.status.phase = .deleting) :=
  ⟨by decide, C5_amended_phase_targets happyCfg .initNabCreate happyState (by decide)⟩

theorem findCondition_setStatusCondition (conds : List Condition) (c : Condition) :
    findCondition (setStatusCondition conds c).1 c.condType = some c := by
  induction conds with
  | nil => simp [setStatusCondition, findCondition]
  | cons a rest ih =>
    simp only [setStatusCondition]
    split_ifs with h1 h2
    · have ha : a = c := by
        obtain ⟨f1, f2, f3⟩ := h2
        cases a; cases c
        simp_all
      simp [findCondition, h1, ha]
    · simp [findCondition, h1]
    · simp [findCondition, h1, ih]

/-- The terminal message for an externally deleted engine backup
(controller line 652). -/
def finalizedBackupGoneMessage : String :=
  "NonAdminBackup is finalized and its associated Velero Backup has been removed. Please create a new NonAdminBackup to initiate a new backup"

/-- C7: In the create/update path, whenever lookup by UUID finds no engine
Backup and the NonAdminBackup was previously Created (condition Queued is
True), the step sets phase BackingOff and condition Accepted=False, and
returns a terminal error (no retry) whose message instructs the user to
create a new NonAdminBackup; no new engine Backup is created in that case. -/
theorem C7_vanished_backup_terminal (r : ReconcilerCfg) (st : ClusterState)
    (ref : VeleroBackupRef)
    (h1 : st.nab.status.veleroBackup = some ref)
    (h2 : ref.nacuuid ≠ "")
    (h3 : checkLabelAnnotationValueIsValid st.nab.labels nabSyncLabelKey = false)
    (h4 : st.nab.status.phase = .created)
    (h5 : isStatusConditionTrue st.nab.status.conditions "Queued" = true)
    (h6 : backupsWithUUID st.veleroBackups ref.nacuuid = []) :
    (runStep r .createVeleroBackupAndSyncWithNonAdminBackup st).state.nab.status.phase
        = .backingOff ∧
    findCondition
        (runStep r .createVeleroBackupAndSyncWithNonAdminBackup st).state.nab.status.conditions
        "Accepted" =
      some { condType := "Accepted", condStatus := false, reason := "VeleroBackupNotFound",
             message := finalizedBackupGoneMessage } ∧
    (runStep r .createVeleroBackupAndSyncWithNonAdminBackup st).outcome =
      .errTerminal finalizedBackupGoneMessage ∧
    createdBackups (runStep r .createVeleroBackupAndSyncWithNonAdminBackup st).writes = [] ∧
    (runStep r .createVeleroBackupAndSyncWithNonAdminBackup st).state.veleroBackups =
      st.veleroBackups := by
  have hfc := findCondition_setStatusCondition st.nab.status.conditions
    { condType := "Accepted", condStatus := false, reason := "VeleroBackupNotFound",
      message := finalizedBackupGoneMessage }
  simp only [runStep, createVeleroBackupAndSyncWithNonAdminBackup, h1, Option.isNone_some,
    Option.getD_some, Bool.false_or, getVeleroBackupByLabel, h6, h3, h4, h5,
    finalizedBackupGoneMessage, updateNonAdminPhase] at hfc ⊢
  simp only [beq_iff_eq, h2, if_false, beq_self_eq_true, Bool.or_true, if_true] at hfc ⊢
  split <;> simp_all [createdBackups, finalizedBackupGoneMessage]

/-- A tenant object previously Created whose engine Backup has vanished. -/
def vanishedBackupState : ClusterState :=
  { nab := { ns := "team-a", name := "db", uid := "u1"
             finalizers := [nabFinalizerName]
             status := { phase := .created
                         conditions := [acceptedTrueCondition, queuedTrueCondition]
                         veleroBackup :=
                           some { nacuuid := "b1f0c8e2", ns := "openshift-adp", name := "b1f0c8e2" }
                         queueInfo := some 1 } }
    queueResult := some 1 }

/-- Witness for C7 at a concrete vanished-backup state. -/
theorem C7_vanished_backup_terminal_witness :
    vanishedBackupState.nab.status.veleroBackup =
      some { nacuuid := "b1f0c8e2", ns := "openshift-adp", name := "b1f0c8e2" } ∧
    ("b1f0c8e2" : String) ≠ "" ∧
    checkLabelAnnotationValueIsValid vanishedBackupState.nab.labels nabSyncLabelKey = false ∧
    vanishedBackupState.nab.status.phase = .created ∧
    isStatusConditionTrue vanishedBackupState.nab.status.conditions "Queued" = true ∧
    backupsWithUUID vanishedBackupState.veleroBackups "b1f0c8e2" = [] ∧
    (runStep {} .createVeleroBackupAndSyncWithNonAdminBackup vanishedBackupState).outcome =
      .errTerminal finalizedBackupGoneMessage :=
  ⟨rfl, by decide, by decide, rfl, by decide, by decide,
   (C7_vanished_backup_terminal {} vanishedBackupState
     { nacuuid := "b1f0c8e2", ns := "openshift-adp", name := "b1f0c8e2" }
     rfl (by decide) (by decide) rfl (by decide) (by decide)).2.2.1⟩

/-! ## C8: validation failure -/

theorem validateBackupSpecModel_congr (st st' : ClusterState)
    (h1 : st'.nab.spec = st.nab.spec) (h2 : st'.nab.ns = st.nab.ns)
    (h3 : st'.naBSLVeleroNames = st.naBSLVeleroNames) :
    validateBackupSpecModel st' = validateBackupSpecModel st := by
  simp [validateBackupSpecModel, h1, h2, h3]

theorem initNabCreate_result (r : ReconcilerCfg) (st : ClusterState) :
    runStep r .initNabCreate st =
      if st.nab.status.phase = .unset then
        { state := { st with nab := { st.nab with status := { st.nab.status with phase := .new } } },
          outcome := .ok,
          writes := [WriteOp.nabStatusUpdate { st.nab.status with phase := .new }] }
      else { state := st, outcome := .ok, writes := [] } := by
  simp only [runStep, initNabCreate, updateNonAdminPhase]
  split_ifs with h1 h2 h3 <;> simp_all

/-- C8: When spec validation of a NonAdminBackup fails, the reconciler sets
phase to BackingOff and condition Accepted=False with reason
InvalidBackupSpec carrying the validation error message, returns a terminal
error that suppresses retry, and creates no engine Backup in that pass. -/
theorem C8_invalid_spec_terminal (r : ReconcilerCfg) (st : ClusterState) (msg : String)
    (hsel : selectPath st.nab = .createUpdate)
    (hval : validateBackupSpecModel st = some msg) :
    (reconcile r st).outcome = .errTerminal msg ∧
    (reconcile r st).state.nab.status.phase = .backingOff ∧
    findCondition (reconcile r st).state.nab.status.conditions "Accepted" =
      some { condType := "Accepted", condStatus := false, reason := "InvalidBackupSpec",
             message := msg } ∧
    createdBackups (reconcile r st).writes = [] := by
  have hfc := fun conds => findCondition_setStatusCondition conds
    { condType := "Accepted", condStatus := false, reason := "InvalidBackupSpec", message := msg }
  unfold reconcile
  rw [hsel]
  simp only [pathSteps, runSteps, initNabCreate_result]
  split_ifs with hp
  · simp only [runStep, validateSpec]
    rw [validateBackupSpecModel_congr st]
    rotate_left
    · rfl
    · rfl
    · rfl
    rw [hval]
    simp_all [createdBackups, updateNonAdminPhase]
  · simp only [runStep, validateSpec]
    rw [hval]
    simp_all [createdBackups, updateNonAdminPhase]
    (repeat' split) <;> simp_all

/-- A tenant object whose spec names a foreign namespace. -/
def invalidSpecState : ClusterState :=
  { nab := { ns := "team-a", name := "db", uid := "u1"
             spec := { backupSpec := { includedNamespaces := ["team-b"] } } } }

/-- Witness for C8 at a concrete invalid spec. -/
theorem C8_invalid_spec_terminal_witness :
    selectPath invalidSpecState.nab = .createUpdate ∧
    validateBackupSpecModel invalidSpecState =
      some "NonAdminBackup spec.backupSpec.includedNamespaces can not contain namespaces other than its own" ∧
    (reconcile {} invalidSpecState).outcome =
      .errTerminal "NonAdminBackup spec.backupSpec.includedNamespaces can not contain namespaces other than its own" ∧
    createdBackups (reconcile {} invalidSpecState).writes = [] :=
  ⟨by decide, by decide,
   (C8_invalid_spec_terminal {} invalidSpecState
     "NonAdminBackup spec.backupSpec.includedNamespaces can not contain namespaces other than its own"
     (by decide) (by decide)).1,
   (C8_invalid_spec_terminal {} invalidSpecState
     "NonAdminBackup spec.backupSpec.includedNamespaces can not contain namespaces other than its own"
     (by decide) (by decide)).2.2.2⟩

/-! ## C4: finalizer discipline -/

theorem getVB_ok_none (bs : List VeleroBackup) (u : String)
    (h : getVeleroBackupByLabel bs u = .ok none) : backupsWithUUID bs u = [] := by
  unfold getVeleroBackupByLabel at h
  split at h <;> simp_all

theorem createVDBR_finalizer (r : ReconcilerCfg) (st : ClusterState) :
    (runStep r .createVeleroDeleteBackupRequest st).state.nab.finalizers = st.nab.finalizers ∨
    (engineBackupExists st = false ∧
     engineBackupExists (runStep r .createVeleroDeleteBackupRequest st).state = false) := by
  rcases hvb : st.nab.status.veleroBackup with _ | ref
  · left
    simp [runStep, createVeleroDeleteBackupRequest, hvb]
  · simp only [runStep, createVeleroDeleteBackupRequest, hvb, Option.isNone_some,
      Option.getD_some, removeNabFinalizerUponVeleroBackupDeletion]
    (repeat' split) <;>
      first
        | (left; rfl)
        | (right
           rename_i heq
           have hempty := getVB_ok_none _ _ heq
           simp [engineBackupExists, hvb, hempty])

theorem deleteVB_finalizer (r : ReconcilerCfg) (st : ClusterState) :
    (runStep r .deleteVeleroBackupObjects st).state.nab.finalizers = st.nab.finalizers ∨
    (engineBackupExists st = false ∧
     engineBackupExists (runStep r .deleteVeleroBackupObjects st).state = false) := by
  rcases hvb : st.nab.status.veleroBackup with _ | ref
  · left
    simp [runStep, deleteVeleroBackupObjects, hvb]
  · simp only [runStep, deleteVeleroBackupObjects, hvb, Option.isNone_some,
      Option.getD_some, removeNabFinalizerUponVeleroBackupDeletion]
    (repeat' split) <;>
      first
        | (left; rfl)
        | (right
           rename_i heq
           have hempty := getVB_ok_none _ _ heq
           simp [engineBackupExists, hvb, hempty])

/-- C4: In every path that can create an engine Backup, the finalizer-add
step precedes the engine-object create step; and the finalizer is removed
only in a reconciliation step that has just observed the lookup-by-UUID
return no engine Backup, so no reconciliation step removes the
NonAdminBackup's finalizer while its engine counterpart exists. -/
theorem C4_finalizer_discipline :
    (∀ p : ReconcilePath,
      StepTag.createVeleroBackupAndSyncWithNonAdminBackup ∈ pathSteps p →
      (pathSteps p).indexOf StepTag.setFinalizerOnNonAdminBackup <
        (pathSteps p).indexOf StepTag.createVeleroBackupAndSyncWithNonAdminBackup) ∧
    (∀ (r : ReconcilerCfg) (tag : StepTag) (st : ClusterState),
      st.nab.finalizers.contains nabFinalizerName = true →
      (runStep r tag st).state.nab.finalizers.contains nabFinalizerName = false →
      engineBackupExists st = false ∧
      engineBackupExists (runStep r tag st).state = false) := by
  constructor
  · intro p hp
    cases p <;> revert hp <;> decide
  · intro r tag st hin hout
    cases tag
    case createVeleroDeleteBackupRequest =>
      rcases createVDBR_finalizer r st with h | h
      · rw [h] at hout
        simp_all
      · exact h
    case deleteVeleroBackupObjects =>
      rcases deleteVB_finalizer r st with h | h
      · rw [h] at hout
        simp_all
      · exact h
    all_goals
      (exfalso
       revert hout
       simp only [runStep, setStatusAndConditionForDeletionAndCallDelete, deleteNonAdminRestores,
         setStatusForDirectKubernetesAPIDeletion, deleteDeleteBackupRequestObjects, initNabCreate,
         validateSpec, setBackupUUIDInStatus, setFinalizerOnNonAdminBackup,
         createVeleroBackupAndSyncWithNonAdminBackup, projectNonAdminBackupStatus,
         removeNabFinalizerUponVeleroBackupDeletion]
       (repeat' split) <;> simp_all)

/-- A finalized tenant object being deleted whose engine Backup is gone. -/
def finalizedNoBackupState : ClusterState :=
  { nab := { ns := "team-a", name := "db", uid := "u1"
             finalizers := [nabFinalizerName]
             deletionTimestampIsSet := true
             status := { phase := .deleting
                         veleroBackup :=
                           some { nacuuid := "b1f0c8e2", ns := "openshift-adp", name := "b1f0c8e2" } } } }

/-- Witness for C4: the create/update ordering, and a concrete removal that
happens only with the engine backup absent. -/
theorem C4_finalizer_discipline_witness :
    StepTag.createVeleroBackupAndSyncWithNonAdminBackup ∈ pathSteps .createUpdate ∧
    ((pathSteps ReconcilePath.createUpdate).indexOf StepTag.setFinalizerOnNonAdminBackup <
      (pathSteps ReconcilePath.createUpdate).indexOf
        StepTag.createVeleroBackupAndSyncWithNonAdminBackup) ∧
    finalizedNoBackupState.nab.finalizers.contains nabFinalizerName = true ∧
    (runStep {} .deleteVeleroBackupObjects finalizedNoBackupState).state.nab.finalizers.contains
      nabFinalizerName = false ∧
    engineBackupExists finalizedNoBackupState = false :=
  ⟨by decide,
   C4_finalizer_discipline.1 .createUpdate (by decide),
   by decide, by decide,
   (C4_finalizer_discipline.2 {} .deleteVeleroBackupObjects finalizedNoBackupState
     (by decide) (by decide)).1⟩


/-! ## C1 and C2: the spec written to a created engine Backup -/

theorem nacRestrict_includedNamespaces (tn : String) (naBSLs : List (String × String))
    (m bs : BackupSpec) (h : nacRestrictBackupSpec tn naBSLs m = .ok bs) :
    bs.includedNamespaces = [tn] := by
  simp only [nacRestrictBackupSpec] at h
  (repeat' split at h) <;> simp_all [Except.map] <;> subst h <;> split <;> rfl

theorem createBackup_mem_runStep (r : ReconcilerCfg) (tag : StepTag) (st : ClusterState)
    (vb : VeleroBackup) (h : WriteOp.createBackup vb ∈ (runStep r tag st).writes) :
    buildVeleroBackupSpec r st = .ok vb.spec := by
  cases tag <;>
    (simp only [runStep, setStatusAndConditionForDeletionAndCallDelete, deleteNonAdminRestores,
      createVeleroDeleteBackupRequest, setStatusForDirectKubernetesAPIDeletion,
      deleteDeleteBackupRequestObjects, deleteVeleroBackupObjects, initNabCreate, validateSpec,
      setBackupUUIDInStatus, setFinalizerOnNonAdminBackup,
      createVeleroBackupAndSyncWithNonAdminBackup, removeNabFinalizerUponVeleroBackupDeletion,
      projectNonAdminBackupStatus] at h) <;>
    (repeat' split at h) <;> simp_all


theorem createBackup_mem_runSteps (r : ReconcilerCfg) (tags : List StepTag) :
    ∀ (st : ClusterState) (ws : List WriteOp) (vb : VeleroBackup),
      WriteOp.createBackup vb ∈ (runSteps r tags st ws).writes →
      WriteOp.createBackup vb ∈ ws ∨
      nacRestrictBackupSpec st.nab.ns st.naBSLVeleroNames
        (mergeEnforcedBackupSpec st.nab.spec.backupSpec r.enforcedBackupSpec) = .ok vb.spec := by
  induction tags with
  | nil =>
    intro st ws vb h
    simp only [runSteps] at h
    exact .inl h
  | cons tag rest ih =>
    intro st ws vb h
    simp only [runSteps] at h
    have hmem_step : WriteOp.createBackup vb ∈ (runStep r tag st).writes →
        nacRestrictBackupSpec st.nab.ns st.naBSLVeleroNames
          (mergeEnforcedBackupSpec st.nab.spec.backupSpec r.enforcedBackupSpec) = .ok vb.spec := by
      intro hm
      have hb := createBackup_mem_runStep r tag st vb hm
      simpa [buildVeleroBackupSpec] using hb
    split at h
    · rcases ih _ _ _ h with h0 | h0
      · rcases List.mem_append.mp h0 with h1 | h1
        · exact .inl h1
        · exact .inr (hmem_step h1)
      · obtain ⟨hns, -, -, -, hspec, hbsl⟩ := runStep_preserves_env r tag st
        rw [hns, hspec, hbsl] at h0
        exact .inr h0
    · rcases List.mem_append.mp h with h1 | h1
      · exact .inl h1
      · exact .inr (hmem_step h1)

/-- C1: For every engine Backup object the reconciler creates,
spec.includedNamespaces is set to exactly the one-element list containing the
tenant NonAdminBackup's namespace, regardless of what the tenant-authored
spec or the admin-enforced spec contained. -/
theorem C1_included_namespaces (r : ReconcilerCfg) (st : ClusterState) (vb : VeleroBackup)
    (h : WriteOp.createBackup vb ∈ (reconcile r st).writes) :
    vb.spec.includedNamespaces = [st.nab.ns] := by
  rcases createBackup_mem_runSteps r (pathSteps (selectPath st.nab)) st [] vb h with h0 | h0
  · simp at h0
  · exact nacRestrict_includedNamespaces _ _ _ _ h0

/-- Witness for C1 on the happy-path pass. -/
theorem C1_included_namespaces_witness :
    WriteOp.createBackup happyBackup ∈ (reconcile happyCfg happyState).writes ∧
    happyBackup.spec.includedNamespaces = [happyState.nab.ns] :=
  ⟨by decide, C1_included_namespaces happyCfg happyState happyBackup (by decide)⟩

theorem mergeField_keep {α : Type} (z : α → Bool) (t e : α) (h : z t = false) :
    mergeField z t e = t := by
  simp [mergeField, h]

theorem mergeField_fill {α : Type} (z : α → Bool) (t e : α) (h1 : z t = true)
    (h2 : z e = false) : mergeField z t e = e := by
  simp [mergeField, h1, h2]

/-- C2 counterexample: with a zero tenant spec and a zero enforced spec the
happy-path pass creates an engine Backup whose spec differs from the plain
enforced merge: includedNamespaces is overwritten and the NAC-internal
exclusions are appended. -/
theorem C2_counterexample :
    (createdBackups (reconcile happyCfg happyState).writes).map VeleroBackup.spec =
      [{ includedNamespaces := ["team-a"],
         excludedResources := alwaysExcludedNamespacedResources ++ alwaysExcludedClusterResources }] ∧
    ¬ ({ includedNamespaces := ["team-a"],
         excludedResources := alwaysExcludedNamespacedResources ++ alwaysExcludedClusterResources } :
          BackupSpec)
        = mergeEnforcedBackupSpec happyState.nab.spec.backupSpec happyCfg.enforcedBackupSpec := by
  decide


/-- C2 amended: the spec written to a newly created engine Backup is the
enforced merge of the tenant spec further transformed by the controller
restrictions (includedNamespaces set to the tenant namespace, the storage
location resolved through the NonAdminBackupStorageLocation, and the
NAC-internal exclusions appended); the merge itself copies an enforced field
in exactly when it is non-zero and the tenant field is zero, and never
overwrites a non-zero tenant field. -/
theorem C2_merge_amended (r : ReconcilerCfg) (st : ClusterState) (vb : VeleroBackup)
    (h : WriteOp.createBackup vb ∈ (reconcile r st).writes) :
    nacRestrictBackupSpec st.nab.ns st.naBSLVeleroNames
      (mergeEnforcedBackupSpec st.nab.spec.backupSpec r.enforcedBackupSpec) = .ok vb.spec ∧
    (∀ t e : BackupSpec,
      (listIsZero t.includedNamespaces = false →
        (mergeEnforcedBackupSpec t e).includedNamespaces = t.includedNamespaces) ∧
      (listIsZero t.includedNamespaces = true → listIsZero e.includedNamespaces = false →
        (mergeEnforcedBackupSpec t e).includedNamespaces = e.includedNamespaces) ∧
      (listIsZero t.excludedNamespaces = false →
        (mergeEnforcedBackupSpec t e).excludedNamespaces = t.excludedNamespaces) ∧
      (listIsZero t.excludedNamespaces = true → listIsZero e.excludedNamespaces = false →
        (mergeEnforcedBackupSpec t e).excludedNamespaces = e.excludedNamespaces) ∧
      (listIsZero t.includedResources = false →
        (mergeEnforcedBackupSpec t e).includedResources = t.includedResources) ∧
      (listIsZero t.includedResources = true → listIsZero e.includedResources = false →
        (mergeEnforcedBackupSpec t e).includedResources = e.includedResources) ∧
      (listIsZero t.excludedResources = false →
        (mergeEnforcedBackupSpec t e).excludedResources = t.excludedResources) ∧
      (listIsZero t.excludedResources = true → listIsZero e.excludedResources = false →
        (mergeEnforcedBackupSpec t e).excludedResources = e.excludedResources) ∧
      (listIsZero t.includedClusterScopedResources = false →
        (mergeEnforcedBackupSpec t e).includedClusterScopedResources =
          t.includedClusterScopedResources) ∧
      (listIsZero t.includedClusterScopedResources = true →
        listIsZero e.includedClusterScopedResources = false →
        (mergeEnforcedBackupSpec t e).includedClusterScopedResources =
          e.includedClusterScopedResources) ∧
      (listIsZero t.excludedClusterScopedResources = false →
        (mergeEnforcedBackupSpec t e).excludedClusterScopedResources =
          t.excludedClusterScopedResources) ∧
      (listIsZero t.excludedClusterScopedResources = true →
        listIsZero e.excludedClusterScopedResources = false →
        (mergeEnforcedBackupSpec t e).excludedClusterScopedResources =
          e.excludedClusterScopedResources) ∧
      (listIsZero t.includedNamespaceScopedResources = false →
        (mergeEnforcedBackupSpec t e).includedNamespaceScopedResources =
          t.includedNamespaceScopedResources) ∧
      (listIsZero t.includedNamespaceScopedResources = true →
        listIsZero e.includedNamespaceScopedResources = false →
        (mergeEnforcedBackupSpec t e).includedNamespaceScopedResources =
          e.includedNamespaceScopedResources) ∧
      (listIsZero t.excludedNamespaceScopedResources = false →
        (mergeEnforcedBackupSpec t e).excludedNamespaceScopedResources =
          t.excludedNamespaceScopedResources) ∧
      (listIsZero t.excludedNamespaceScopedResources = true →
        listIsZero e.excludedNamespaceScopedResources = false →
        (mergeEnforcedBackupSpec t e).excludedNamespaceScopedResources =
          e.excludedNamespaceScopedResources) ∧
      (stringIsZero t.storageLocation = false →
        (mergeEnforcedBackupSpec t e).storageLocation = t.storageLocation) ∧
      (stringIsZero t.storageLocation = true → stringIsZero e.storageLocation = false →
        (mergeEnforcedBackupSpec t e).storageLocation = e.storageLocation) ∧
      (stringIsZero t.ttl = false → (mergeEnforcedBackupSpec t e).ttl = t.ttl) ∧
      (stringIsZero t.ttl = true → stringIsZero e.ttl = false →
        (mergeEnforcedBackupSpec t e).ttl = e.ttl) ∧
      (optIsZero t.snapshotVolumes = false →
        (mergeEnforcedBackupSpec t e).snapshotVolumes = t.snapshotVolumes) ∧
      (optIsZero t.snapshotVolumes = true → optIsZero e.snapshotVolumes = false →
        (mergeEnforcedBackupSpec t e).snapshotVolumes = e.snapshotVolumes) ∧
      (optIsZero t.defaultVolumesToFsBackup = false →
        (mergeEnforcedBackupSpec t e).defaultVolumesToFsBackup = t.defaultVolumesToFsBackup) ∧
      (optIsZero t.defaultVolumesToFsBackup = true → optIsZero e.defaultVolumesToFsBackup = false →
        (mergeEnforcedBackupSpec t e).defaultVolumesToFsBackup = e.defaultVolumesToFsBackup)) := by
  constructor
  · rcases createBackup_mem_runSteps r (pathSteps (selectPath st.nab)) st [] vb h with h0 | h0
    · simp at h0
    · exact h0
  · intro t e
    refine ⟨?_, ?_, ?_, ?_, ?_, ?_, ?_, ?_, ?_, ?_, ?_, ?_, ?_, ?_, ?_, ?_, ?_, ?_, ?_, ?_,
      ?_, ?_, ?_, ?_⟩ <;>
      first
        | (intro h1; exact mergeField_keep _ _ _ h1)
        | (intro h1 h2; exact mergeField_fill _ _ _ h1 h2)


/-- Witness for C2 amended on the happy-path pass. -/
theorem C2_merge_amended_witness :
    WriteOp.createBackup happyBackup ∈ (reconcile happyCfg happyState).writes ∧
    nacRestrictBackupSpec happyState.nab.ns happyState.naBSLVeleroNames
      (mergeEnforcedBackupSpec happyState.nab.spec.backupSpec happyCfg.enforcedBackupSpec) =
      .ok happyBackup.spec :=
  ⟨by decide, (C2_merge_amended happyCfg happyState happyBackup (by decide)).1⟩

end NAC
